import Mathlib

/-!
Shallow embedding of the OAuth token ledger and session transport of the
zenstack-mcp-auth server.

The provider (`src/auth/PasswordAuthProvider.ts`) keeps its state in four
Prisma tables (`user`, `authorizationCode`, `accessToken`, `refreshToken`);
we model the database as explicit lists of records and every provider method
as a pure function from the database (plus the effectful inputs that the
TypeScript code obtains from its environment) to the updated database and a
result.  Effectful externals are passed as explicit arguments:
`Date.now()` becomes a `now : Nat` argument (milliseconds),
`crypto.randomBytes(32).toString(...)` becomes fresh-string arguments,
`crypto.createHash('sha256')...digest('base64url')` becomes a
`hash : String → String` argument, and `bcrypt.compare` becomes a
`bcryptCompare : String → String → Bool` argument — these primitives are
external libraries, outside the repository's code.

JavaScript truthiness matters in several conditions of the source
(`if (codeVerifier)`, `if (redirectUri && ...)`, `scopes || ...`,
`if (!user.password)`); the embedding reproduces it exactly: an optional
string is truthy iff it is present and non-empty, and an array (`scopes`)
is truthy iff it is present, regardless of emptiness.
-/

/-- A row of the `authorizationCode` table (`prisma.authorizationCode`). -/
structure AuthorizationCode where
  code : String
  clientId : String
  userId : Nat
  codeChallenge : String
  redirectUri : String
  expiresAt : Nat
  scopes : List String
deriving DecidableEq

/-- A row of the `accessToken` / `refreshToken` tables: both have the same
shape (`token`, `clientId`, `userId`, `scopes`, `expiresAt`). -/
structure TokenRecord where
  token : String
  clientId : String
  userId : Nat
  scopes : List String
  expiresAt : Nat
deriving DecidableEq

/-- A row of the `user` table; `password` is nullable in the schema, which
the source checks (`if (!user.password)`). -/
structure UserRecord where
  id : Nat
  email : String
  password : Option String
deriving DecidableEq

/-- The provider's persistent state: the four Prisma tables used by
`PasswordAuthProvider`. -/
structure Db where
  users : List UserRecord
  authorizationCodes : List AuthorizationCode
  accessTokens : List TokenRecord
  refreshTokens : List TokenRecord
deriving DecidableEq

/-- `prisma.user.findUnique({ where: { email } })`. -/
def Db.findUserByEmail (db : Db) (email : String) : Option UserRecord :=
  db.users.find? (fun u => u.email == email)

/-- `prisma.authorizationCode.findUnique({ where: { code } })`. -/
def Db.findAuthorizationCode (db : Db) (code : String) : Option AuthorizationCode :=
  db.authorizationCodes.find? (fun r => r.code == code)

/-- `prisma.authorizationCode.delete({ where: { code } })`. -/
def Db.deleteAuthorizationCode (db : Db) (code : String) : Db :=
  { db with authorizationCodes := db.authorizationCodes.filter (fun r => r.code != code) }

/-- `prisma.accessToken.findUnique({ where: { token } })`. -/
def Db.findAccessToken (db : Db) (token : String) : Option TokenRecord :=
  db.accessTokens.find? (fun r => r.token == token)

/-- `prisma.accessToken.delete({ where: { token } })`. -/
def Db.deleteAccessToken (db : Db) (token : String) : Db :=
  { db with accessTokens := db.accessTokens.filter (fun r => r.token != token) }

/-- `prisma.refreshToken.findUnique({ where: { token } })`. -/
def Db.findRefreshToken (db : Db) (token : String) : Option TokenRecord :=
  db.refreshTokens.find? (fun r => r.token == token)

/-- `prisma.refreshToken.delete({ where: { token } })`. -/
def Db.deleteRefreshToken (db : Db) (token : String) : Db :=
  { db with refreshTokens := db.refreshTokens.filter (fun r => r.token != token) }

/-- The `Error` values thrown by the provider, one constructor per distinct
`throw new Error(...)` message. -/
inductive AuthError where
  | invalidAuthorizationCode
  | authorizationCodeExpired
  | invalidRedirectUri
  | invalidCodeVerifier
  | invalidRefreshToken
  | refreshTokenExpired
  | invalidAccessToken
  | accessTokenExpired
deriving DecidableEq

/-- The `OAuthTokens` object returned by the token exchanges. -/
structure OAuthTokens where
  access_token : String
  token_type : String
  expires_in : Nat
  refresh_token : String
  scope : String
deriving DecidableEq

/-- The `AuthInfo` object returned by `verifyAccessToken`; `expiresAt` is in
seconds (`Math.floor(ms / 1000)`), `userId` comes from the `extra` field. -/
structure AuthInfo where
  token : String
  clientId : String
  scopes : List String
  expiresAt : Nat
  userId : Nat
deriving DecidableEq

/-- `if (redirectUri && authData.redirectUri !== redirectUri)`: the check
fires only when the optional string is truthy (present and non-empty). -/
def redirectUriMismatch (bound : String) (redirectUri : Option String) : Bool :=
  match redirectUri with
  | some r => r != "" && bound != r
  | none => false

/-- `if (codeVerifier) { ... if (challenge !== authData.codeChallenge) throw }`:
PKCE fails only when the verifier is truthy and its recomputed challenge
differs from the stored one. -/
def pkceMismatch (hash : String → String) (codeChallenge : String)
    (codeVerifier : Option String) : Bool :=
  match codeVerifier with
  | some v => v != "" && hash v != codeChallenge
  | none => false

/-- `PasswordAuthProvider.exchangeAuthorizationCode`.  `hash` stands for
SHA-256/base64url from node's crypto, `now` for `Date.now()` (ms), and
`newAccessToken`/`newRefreshToken` for the two `crypto.randomBytes(32)`
results.  Returns the updated database together with the result, since the
expiry path both mutates the database and throws. -/
def exchangeAuthorizationCode (hash : String → String) (now : Nat)
    (newAccessToken newRefreshToken : String) (db : Db) (clientId : String)
    (authorizationCode : String) (codeVerifier redirectUri : Option String) :
    Db × Except AuthError OAuthTokens :=
  match db.findAuthorizationCode authorizationCode with
  | none => (db, Except.error AuthError.invalidAuthorizationCode)
  | some authData =>
    if authData.clientId ≠ clientId then
      (db, Except.error AuthError.invalidAuthorizationCode)
    else if authData.expiresAt < now then
      (db.deleteAuthorizationCode authorizationCode,
        Except.error AuthError.authorizationCodeExpired)
    else if redirectUriMismatch authData.redirectUri redirectUri then
      (db, Except.error AuthError.invalidRedirectUri)
    else if pkceMismatch hash authData.codeChallenge codeVerifier then
      (db, Except.error AuthError.invalidCodeVerifier)
    else
      let accessRecord : TokenRecord :=
        ⟨newAccessToken, clientId, authData.userId, authData.scopes, now + 3600 * 1000⟩
      let refreshRecord : TokenRecord :=
        ⟨newRefreshToken, clientId, authData.userId, authData.scopes, now + 86400 * 30 * 1000⟩
      let db1 : Db := { db with
        accessTokens := db.accessTokens ++ [accessRecord],
        refreshTokens := db.refreshTokens ++ [refreshRecord] }
      (db1.deleteAuthorizationCode authorizationCode,
        Except.ok
          { access_token := newAccessToken, token_type := "Bearer",
            expires_in := 3600, refresh_token := newRefreshToken,
            scope := String.intercalate " " authData.scopes })

/-- `PasswordAuthProvider.challengeForAuthorizationCode`. -/
def challengeForAuthorizationCode (now : Nat) (db : Db)
    (clientId authorizationCode : String) : Db × Except AuthError String :=
  match db.findAuthorizationCode authorizationCode with
  | none => (db, Except.error AuthError.invalidAuthorizationCode)
  | some authData =>
    if authData.clientId ≠ clientId then
      (db, Except.error AuthError.invalidAuthorizationCode)
    else if authData.expiresAt < now then
      (db.deleteAuthorizationCode authorizationCode,
        Except.error AuthError.authorizationCodeExpired)
    else (db, Except.ok authData.codeChallenge)

/-- `PasswordAuthProvider.exchangeRefreshToken`.  `scopes` models the
optional `scopes?: string[]` argument; `scopes || tokenData.scopes` in the
source keeps a provided array even when it is empty (arrays are truthy in
JavaScript), so the fallback applies only when the argument is absent. -/
def exchangeRefreshToken (now : Nat) (newAccessToken newRefreshToken : String)
    (db : Db) (clientId refreshToken : String) (scopes : Option (List String)) :
    Db × Except AuthError OAuthTokens :=
  match db.findRefreshToken refreshToken with
  | none => (db, Except.error AuthError.invalidRefreshToken)
  | some tokenData =>
    if tokenData.clientId ≠ clientId then
      (db, Except.error AuthError.invalidRefreshToken)
    else if tokenData.expiresAt < now then
      (db.deleteRefreshToken refreshToken,
        Except.error AuthError.refreshTokenExpired)
    else
      let finalScopes : List String := scopes.getD tokenData.scopes
      let accessRecord : TokenRecord :=
        ⟨newAccessToken, clientId, tokenData.userId, finalScopes, now + 3600 * 1000⟩
      let refreshRecord : TokenRecord :=
        ⟨newRefreshToken, clientId, tokenData.userId, finalScopes, now + 86400 * 30 * 1000⟩
      let db1 : Db := { db with accessTokens := db.accessTokens ++ [accessRecord] }
      let db2 : Db := db1.deleteRefreshToken refreshToken
      ({ db2 with refreshTokens := db2.refreshTokens ++ [refreshRecord] },
        Except.ok
          { access_token := newAccessToken, token_type := "Bearer",
            expires_in := 3600, refresh_token := newRefreshToken,
            scope := String.intercalate " " finalScopes })

/-- `PasswordAuthProvider.verifyAccessToken`. -/
def verifyAccessToken (now : Nat) (db : Db) (token : String) :
    Db × Except AuthError AuthInfo :=
  match db.findAccessToken token with
  | none => (db, Except.error AuthError.invalidAccessToken)
  | some tokenData =>
    if tokenData.expiresAt < now then
      (db.deleteAccessToken token, Except.error AuthError.accessTokenExpired)
    else
      (db, Except.ok
        ⟨token, tokenData.clientId, tokenData.scopes,
          tokenData.expiresAt / 1000, tokenData.userId⟩)

/-- `PasswordAuthProvider.revokeToken`: tries the access-token table first,
then the refresh-token table, deleting only a record owned by the calling
client; otherwise it silently succeeds without touching the database. -/
def revokeToken (db : Db) (clientId token : String) : Db :=
  match db.findAccessToken token with
  | some accessTokenData =>
    if accessTokenData.clientId = clientId then db.deleteAccessToken token
    else
      match db.findRefreshToken token with
      | some refreshTokenData =>
        if refreshTokenData.clientId = clientId then db.deleteRefreshToken token
        else db
      | none => db
  | none =>
    match db.findRefreshToken token with
    | some refreshTokenData =>
      if refreshTokenData.clientId = clientId then db.deleteRefreshToken token
      else db
    | none => db

/-- The result object of `PasswordAuthProvider.handleLogin`:
`{ success: boolean; authCode?: string; error?: string }`. -/
structure LoginResult where
  success : Bool
  authCode : Option String
  error : Option String
deriving DecidableEq

/-- `PasswordAuthProvider.handleLogin`.  `bcryptCompare` stands for
`bcrypt.compare`, `newAuthCode` for `crypto.randomBytes(32).toString('hex')`.
`if (!user.password)` treats a null or empty stored password as absent. -/
def handleLogin (bcryptCompare : String → String → Bool) (now : Nat)
    (newAuthCode : String) (db : Db) (email password clientId state
    codeChallenge redirectUri : String) (scopes : List String) :
    Db × LoginResult :=
  match db.findUserByEmail email with
  | none => (db, ⟨false, none, some "User not found"⟩)
  | some user =>
    if user.password.getD "" = "" then
      (db, ⟨false, none, some "Password not accessible"⟩)
    else if ¬ bcryptCompare password (user.password.getD "") then
      (db, ⟨false, none, some "Invalid password"⟩)
    else
      ({ db with authorizationCodes := db.authorizationCodes ++
          [⟨newAuthCode, clientId, user.id, codeChallenge, redirectUri,
            now + 600000, scopes⟩] },
        ⟨true, some newAuthCode, none⟩)

/-!
Session transport multiplexer (`src/index.ts`).  `activeConnections` is a
`Map<string, SSEServerTransport>`; an entry is created by
`handleSSEConnection` for the authenticated user and keyed by the generated
`sessionId`.  We model the table as a list of entries recording the session
id and the user id the connection was opened for.
-/

/-- An entry of `activeConnections`: the transport for one SSE session,
together with the user id the MCP server of that connection is bound to. -/
structure SessionEntry where
  sessionId : String
  userId : Nat
deriving DecidableEq

/-- The request body seen by the `/message` handler: either already parsed
by `express.json()` (an object), or a raw string that `JSON.parse` either
accepts or rejects. -/
inductive MessageBody where
  | json (hasParams : Bool)
  | text (valid : Bool) (hasParams : Bool)
deriving DecidableEq

/-- What the `/message` handler does once past authentication:
`delivered sid` means `transport.handlePostMessage` was called on the
session's connection; `invalidJson` is the 400 response for an unparsable
string body; `noResponse` means the handler returned without writing any
response (the `if (transport)` fall-through). -/
inductive MessageOutcome where
  | delivered (sessionId : String)
  | invalidJson
  | noResponse
deriving DecidableEq

/-- `sessions.find?` on the session table, as `activeConnections.get`. -/
def findSession (sessions : List SessionEntry) (sessionId : String) :
    Option SessionEntry :=
  sessions.find? (fun s => s.sessionId == sessionId)

/-- Body of `app.post('/message', ...)` after the auth middleware: look the
`sessionId` query parameter up in `activeConnections`; when found, reject an
unparsable string body with a 400 and otherwise deliver the message to that
transport; when not found, fall through without sending any response.  The
session table itself is never modified by this handler. -/
def handleMessage (sessions : List SessionEntry) (sessionId : String)
    (body : MessageBody) : List SessionEntry × MessageOutcome :=
  match findSession sessions sessionId with
  | some _ =>
    match body with
    | MessageBody.text false _ => (sessions, MessageOutcome.invalidJson)
    | _ => (sessions, MessageOutcome.delivered sessionId)
  | none => (sessions, MessageOutcome.noResponse)

/-- Token extraction of `getFlexibleAuthMiddleware`: take the rest of an
`Authorization: Bearer ...` header when present (the source's
`authHeader.startsWith('Bearer ')` / `authHeader.substring(7)`, modelled on
the character list), otherwise the `access_token` query parameter when
truthy; an empty or absent result means no token (`if (!token)` → 401). -/
def extractToken (authHeader queryAccessToken : Option String) : Option String :=
  let fromHeader : String :=
    match authHeader with
    | some h =>
      if h.data.take 7 = "Bearer ".data then String.mk (h.data.drop 7) else ""
    | none => ""
  let token : String :=
    if fromHeader = "" then (queryAccessToken.getD "") else fromHeader
  if token = "" then none else some token

/-- The response of a `/message` request as a whole. -/
inductive PostMessageResult where
  | missingToken
  | authFailed
  | outcome (o : MessageOutcome)
deriving DecidableEq

/-- The full `/message` route: `getFlexibleAuthMiddleware` (extract a token,
verify it, 401 on failure) followed by the message handler.  Returns the
token store, the session table and the response. -/
def postMessage (now : Nat) (db : Db) (sessions : List SessionEntry)
    (authHeader queryAccessToken : Option String) (sessionId : String)
    (body : MessageBody) : Db × List SessionEntry × PostMessageResult :=
  match extractToken authHeader queryAccessToken with
  | none => (db, sessions, PostMessageResult.missingToken)
  | some token =>
    match verifyAccessToken now db token with
    | (db1, Except.error _) => (db1, sessions, PostMessageResult.authFailed)
    | (db1, Except.ok _) =>
      let r := handleMessage sessions sessionId body
      (db1, r.1, PostMessageResult.outcome r.2)

/-!
Helper lemmas.
-/

/-- Deleting every record whose key equals `k` makes a lookup of `k` miss. -/
theorem find?_filter_key {α : Type} (key : α → String) (l : List α) (k : String) :
    (l.filter (fun r => key r != k)).find? (fun r => key r == k) = none := by
  induction l with
  | nil => rfl
  | cons a t ih =>
    by_cases h : key a = k
    · simp [List.filter_cons, h, ih]
    · simp [List.filter_cons, List.find?_cons, h, ih]

theorem findAuthorizationCode_delete (db : Db) (code : String) :
    (db.deleteAuthorizationCode code).findAuthorizationCode code = none :=
  find?_filter_key AuthorizationCode.code db.authorizationCodes code

theorem findAccessToken_delete (db : Db) (token : String) :
    (db.deleteAccessToken token).findAccessToken token = none :=
  find?_filter_key TokenRecord.token db.accessTokens token

theorem findRefreshToken_delete (db : Db) (token : String) :
    (db.deleteRefreshToken token).findRefreshToken token = none :=
  find?_filter_key TokenRecord.token db.refreshTokens token

/-- On an unknown code the exchange fails without touching the database. -/
theorem exchangeAuthorizationCode_unknown (hash : String → String) (now : Nat)
    (nA nR : String) (db : Db) (clientId code : String)
    (cv ru : Option String) (h : db.findAuthorizationCode code = none) :
    exchangeAuthorizationCode hash now nA nR db clientId code cv ru =
      (db, Except.error AuthError.invalidAuthorizationCode) := by
  unfold exchangeAuthorizationCode
  rw [h]

/-- On an unknown refresh token the exchange fails without touching the
database. -/
theorem exchangeRefreshToken_unknown (now : Nat) (nA nR : String) (db : Db)
    (clientId rt : String) (scopes : Option (List String))
    (h : db.findRefreshToken rt = none) :
    exchangeRefreshToken now nA nR db clientId rt scopes =
      (db, Except.error AuthError.invalidRefreshToken) := by
  unfold exchangeRefreshToken
  rw [h]

/-- A successful code exchange leaves exactly the stored codes with a
different code string. -/
theorem exchangeAuthorizationCode_ok_authCodes (hash : String → String)
    (now : Nat) (nA nR : String) (db db' : Db) (clientId code : String)
    (cv ru : Option String) (tok : OAuthTokens)
    (h : exchangeAuthorizationCode hash now nA nR db clientId code cv ru =
      (db', Except.ok tok)) :
    db'.authorizationCodes =
      db.authorizationCodes.filter (fun r => r.code != code) := by
  unfold exchangeAuthorizationCode at h
  split at h
  · simp at h
  · split at h
    · simp at h
    · split at h
      · simp at h
      · split at h
        · simp at h
        · split at h
          · simp at h
          · simp only [Prod.mk.injEq] at h
            rw [← h.1]
            rfl

/-- C1: Authorization codes are single-use — after a successful
`exchangeAuthorizationCode` for a code, the code record is deleted, so any
second sequential exchange attempt with the same code fails with the
invalid-grant error `Invalid authorization code`. -/
theorem authorizationCode_single_use (hash hash2 : String → String)
    (now now2 : Nat) (nA nR nA2 nR2 : String) (db db' : Db)
    (clientId clientId2 code : String) (cv ru cv2 ru2 : Option String)
    (tok : OAuthTokens)
    (h : exchangeAuthorizationCode hash now nA nR db clientId code cv ru =
      (db', Except.ok tok)) :
    db'.findAuthorizationCode code = none ∧
    exchangeAuthorizationCode hash2 now2 nA2 nR2 db' clientId2 code cv2 ru2 =
      (db', Except.error AuthError.invalidAuthorizationCode) := by
  have hnone : db'.findAuthorizationCode code = none := by
    unfold Db.findAuthorizationCode
    rw [exchangeAuthorizationCode_ok_authCodes hash now nA nR db db' clientId
      code cv ru tok h]
    exact find?_filter_key AuthorizationCode.code db.authorizationCodes code
  exact ⟨hnone, exchangeAuthorizationCode_unknown hash2 now2 nA2 nR2 db'
    clientId2 code cv2 ru2 hnone⟩

def dbOneCode : Db :=
  ⟨[], [⟨"c1", "client1", 1, "ch", "https://app.example/cb", 1000, ["read"]⟩],
    [], []⟩

def dbAfterExchange : Db :=
  ⟨[], [], [⟨"a1", "client1", 1, ["read"], 3600000⟩],
    [⟨"r1", "client1", 1, ["read"], 2592000000⟩]⟩

/-- Witness for C1 at a concrete database. -/
theorem authorizationCode_single_use_witness :
    dbAfterExchange.findAuthorizationCode "c1" = none ∧
    exchangeAuthorizationCode (fun s => s) 5 "a2" "r2" dbAfterExchange "client1" "c1"
        none none =
      (dbAfterExchange, Except.error AuthError.invalidAuthorizationCode) :=
  authorizationCode_single_use (fun s => s) (fun s => s) 0 5 "a1" "r1" "a2"
    "r2" dbOneCode dbAfterExchange "client1" "client1" "c1" none none none none
    ⟨"a1", "Bearer", 3600, "r1", "read"⟩ (by rfl)

/-- C2 (amended): PKCE verification, as `exchangeAuthorizationCode` performs
it — if the supplied verifier is non-empty and its recomputed challenge
differs from the stored one the exchange fails with the invalid-grant error
`Invalid code verifier`, and if it matches (and the other checks pass) the
exchange succeeds.  An empty verifier is treated as absent
(`if (codeVerifier)` is false on `""`), so the check is skipped for it —
see the counterexample below. -/
theorem pkce_verifier_checked (hash : String → String) (now : Nat)
    (nA nR : String) (db : Db) (clientId code : String) (ru : Option String)
    (v : String) (ad : AuthorizationCode)
    (hfind : db.findAuthorizationCode code = some ad)
    (hcl : ad.clientId = clientId)
    (hexp : ¬ ad.expiresAt < now)
    (hru : redirectUriMismatch ad.redirectUri ru = false)
    (hv : v ≠ "") :
    (hash v ≠ ad.codeChallenge →
      exchangeAuthorizationCode hash now nA nR db clientId code (some v) ru =
        (db, Except.error AuthError.invalidCodeVerifier)) ∧
    (hash v = ad.codeChallenge →
      (exchangeAuthorizationCode hash now nA nR db clientId code (some v) ru).2 =
        Except.ok
          { access_token := nA, token_type := "Bearer", expires_in := 3600,
            refresh_token := nR,
            scope := String.intercalate " " ad.scopes }) := by
  constructor
  · intro hne
    unfold exchangeAuthorizationCode
    simp [hfind, hcl, hexp, hru, pkceMismatch, hv, hne]
  · intro hEq
    unfold exchangeAuthorizationCode
    simp [hfind, hcl, hexp, hru, pkceMismatch, hEq]

/-- Witness for the amended C2 at a concrete database and hash function. -/
theorem pkce_verifier_checked_witness :
    ((fun s => "H" ++ s) "ver" ≠ "ch" →
      exchangeAuthorizationCode (fun s => "H" ++ s) 0 "a1" "r1" dbOneCode
          "client1" "c1" (some "ver") none =
        (dbOneCode, Except.error AuthError.invalidCodeVerifier)) ∧
    ((fun s => "H" ++ s) "ver" = "ch" →
      (exchangeAuthorizationCode (fun s => "H" ++ s) 0 "a1" "r1" dbOneCode
          "client1" "c1" (some "ver") none).2 =
        Except.ok
          { access_token := "a1", token_type := "Bearer", expires_in := 3600,
            refresh_token := "r1",
            scope := String.intercalate " " ["read"] }) :=
  pkce_verifier_checked (fun s => "H" ++ s) 0 "a1" "r1" dbOneCode "client1"
    "c1" none "ver"
    ⟨"c1", "client1", 1, "ch", "https://app.example/cb", 1000, ["read"]⟩
    (by rfl) (by rfl) (by decide) (by rfl) (by decide)

/-- Counterexample to C2 as stated: the empty string is a supplied verifier
whose recomputed challenge differs from the stored challenge `"ch"` (for the
concrete hash below, and equally for real SHA-256, whose base64url digests
are 43 characters long), yet the exchange succeeds, because
`if (codeVerifier)` is false on `""` and the PKCE check is skipped. -/
theorem pkce_empty_verifier_skipped :
    (fun s => "H" ++ s) "" ≠ "ch" ∧
    (exchangeAuthorizationCode (fun s => "H" ++ s) 0 "a1" "r1" dbOneCode
        "client1" "c1" (some "") none).2 =
      Except.ok
        { access_token := "a1", token_type := "Bearer", expires_in := 3600,
          refresh_token := "r1", scope := "read" } :=
  ⟨by decide, by rfl⟩

/-- C5 (amended): the redirect-URI check of `exchangeAuthorizationCode`
fires exactly when a non-empty `redirect_uri` argument is supplied and
differs from the bound value; when the argument is omitted the check is
skipped (`if (redirectUri && ...)`) and the exchange can succeed — see the
counterexample below. -/
theorem redirect_uri_checked (hash : String → String) (now : Nat)
    (nA nR : String) (db : Db) (clientId code : String) (cv : Option String)
    (r : String) (ad : AuthorizationCode)
    (hfind : db.findAuthorizationCode code = some ad)
    (hcl : ad.clientId = clientId)
    (hexp : ¬ ad.expiresAt < now) :
    (r ≠ "" → ad.redirectUri ≠ r →
      exchangeAuthorizationCode hash now nA nR db clientId code cv (some r) =
        (db, Except.error AuthError.invalidRedirectUri)) ∧
    (pkceMismatch hash ad.codeChallenge cv = false →
      (exchangeAuthorizationCode hash now nA nR db clientId code cv none).2 =
        Except.ok
          { access_token := nA, token_type := "Bearer", expires_in := 3600,
            refresh_token := nR,
            scope := String.intercalate " " ad.scopes }) := by
  constructor
  · intro hr hne
    unfold exchangeAuthorizationCode
    simp [hfind, hcl, hexp, redirectUriMismatch, hr, hne]
  · intro hcv
    unfold exchangeAuthorizationCode
    simp [hfind, hcl, hexp, redirectUriMismatch, hcv]

/-- Witness for the amended C5 at a concrete database. -/
theorem redirect_uri_checked_witness :
    ("https://evil.example/cb" ≠ "" →
      "https://app.example/cb" ≠ "https://evil.example/cb" →
      exchangeAuthorizationCode (fun s => s) 0 "a1" "r1" dbOneCode "client1"
          "c1" none (some "https://evil.example/cb") =
        (dbOneCode, Except.error AuthError.invalidRedirectUri)) ∧
    (pkceMismatch (fun s => s) "ch" none = false →
      (exchangeAuthorizationCode (fun s => s) 0 "a1" "r1" dbOneCode "client1"
          "c1" none none).2 =
        Except.ok
          { access_token := "a1", token_type := "Bearer", expires_in := 3600,
            refresh_token := "r1",
            scope := String.intercalate " " ["read"] }) :=
  redirect_uri_checked (fun s => s) 0 "a1" "r1" dbOneCode "client1" "c1" none
    "https://evil.example/cb"
    ⟨"c1", "client1", 1, "ch", "https://app.example/cb", 1000, ["read"]⟩
    (by rfl) (by rfl) (by decide)

/-- A successful refresh exchange, in closed form: the new access token is
appended, the presented refresh token is deleted and the rotated one
appended, and the issued pair carries `scopes || tokenData.scopes`. -/
theorem exchangeRefreshToken_ok (now : Nat) (nA nR : String) (db : Db)
    (clientId rt : String) (scopes : Option (List String)) (td : TokenRecord)
    (hfind : db.findRefreshToken rt = some td)
    (hcl : td.clientId = clientId)
    (hexp : ¬ td.expiresAt < now) :
    exchangeRefreshToken now nA nR db clientId rt scopes =
      ({ users := db.users, authorizationCodes := db.authorizationCodes,
         accessTokens := db.accessTokens ++
           [⟨nA, clientId, td.userId, scopes.getD td.scopes, now + 3600 * 1000⟩],
         refreshTokens := (db.refreshTokens.filter (fun r => r.token != rt)) ++
           [⟨nR, clientId, td.userId, scopes.getD td.scopes,
             now + 86400 * 30 * 1000⟩] },
       Except.ok
         { access_token := nA, token_type := "Bearer", expires_in := 3600,
           refresh_token := nR,
           scope := String.intercalate " " (scopes.getD td.scopes) }) := by
  unfold exchangeRefreshToken
  simp [hfind, hcl, hexp, Db.deleteRefreshToken]

/-- C3: refresh tokens rotate — a successful `exchangeRefreshToken` call
issues a fresh access/refresh pair, removes the presented refresh token (so
a second exchange with it fails with `Invalid refresh token`), and the
returned refresh token differs from the presented one. -/
theorem refresh_token_rotation (now now2 : Nat) (nA nR nA2 nR2 : String)
    (db : Db) (clientId clientId2 rt : String)
    (scopes scopes2 : Option (List String)) (td : TokenRecord)
    (hfind : db.findRefreshToken rt = some td)
    (hcl : td.clientId = clientId)
    (hexp : ¬ td.expiresAt < now)
    (hfresh : nR ≠ rt) :
    (exchangeRefreshToken now nA nR db clientId rt scopes).2 =
      Except.ok
        { access_token := nA, token_type := "Bearer", expires_in := 3600,
          refresh_token := nR,
          scope := String.intercalate " " (scopes.getD td.scopes) } ∧
    TokenRecord.mk nA clientId td.userId (scopes.getD td.scopes)
        (now + 3600 * 1000) ∈
      (exchangeRefreshToken now nA nR db clientId rt scopes).1.accessTokens ∧
    TokenRecord.mk nR clientId td.userId (scopes.getD td.scopes)
        (now + 86400 * 30 * 1000) ∈
      (exchangeRefreshToken now nA nR db clientId rt scopes).1.refreshTokens ∧
    (exchangeRefreshToken now nA nR db clientId rt scopes).1.findRefreshToken
        rt = none ∧
    exchangeRefreshToken now2 nA2 nR2
        (exchangeRefreshToken now nA nR db clientId rt scopes).1 clientId2 rt
        scopes2 =
      ((exchangeRefreshToken now nA nR db clientId rt scopes).1,
        Except.error AuthError.invalidRefreshToken) := by
  have hrun := exchangeRefreshToken_ok now nA nR db clientId rt scopes td
    hfind hcl hexp
  have hnone : (exchangeRefreshToken now nA nR db clientId rt
      scopes).1.findRefreshToken rt = none := by
    rw [hrun]
    unfold Db.findRefreshToken
    rw [List.find?_append, find?_filter_key TokenRecord.token]
    simp [List.find?_cons, hfresh]
  refine ⟨by rw [hrun], ?_, ?_, hnone,
    exchangeRefreshToken_unknown now2 nA2 nR2 _ clientId2 rt scopes2 hnone⟩
  · rw [hrun]; simp
  · rw [hrun]; simp

def dbOneRefresh : Db := ⟨[], [], [], [⟨"rt1", "client1", 7, ["read"], 1000⟩]⟩

/-- Witness for C3 at a concrete database. -/
theorem refresh_token_rotation_witness :
    (exchangeRefreshToken 0 "a1" "r1" dbOneRefresh "client1" "rt1" none).2 =
      Except.ok
        { access_token := "a1", token_type := "Bearer", expires_in := 3600,
          refresh_token := "r1",
          scope := String.intercalate " " ((none : Option (List String)).getD
            ["read"]) } ∧
    TokenRecord.mk "a1" "client1" 7 ((none : Option (List String)).getD
        ["read"]) (0 + 3600 * 1000) ∈
      (exchangeRefreshToken 0 "a1" "r1" dbOneRefresh "client1" "rt1"
        none).1.accessTokens ∧
    TokenRecord.mk "r1" "client1" 7 ((none : Option (List String)).getD
        ["read"]) (0 + 86400 * 30 * 1000) ∈
      (exchangeRefreshToken 0 "a1" "r1" dbOneRefresh "client1" "rt1"
        none).1.refreshTokens ∧
    (exchangeRefreshToken 0 "a1" "r1" dbOneRefresh "client1" "rt1"
        none).1.findRefreshToken "rt1" = none ∧
    exchangeRefreshToken 9 "a2" "r2"
        (exchangeRefreshToken 0 "a1" "r1" dbOneRefresh "client1" "rt1" none).1
        "client1" "rt1" none =
      ((exchangeRefreshToken 0 "a1" "r1" dbOneRefresh "client1" "rt1" none).1,
        Except.error AuthError.invalidRefreshToken) :=
  refresh_token_rotation 0 9 "a1" "r1" "a2" "r2" dbOneRefresh "client1"
    "client1" "rt1" none none ⟨"rt1", "client1", 7, ["read"], 1000⟩
    (by rfl) (by rfl) (by decide) (by decide)

/-- C4 (amended): the scopes issued by a successful `exchangeRefreshToken`
are the requested scopes whenever the `scopes` argument is provided — even
when it is the empty list, since a JavaScript array is truthy regardless of
emptiness — and the original refresh token's scopes only when the argument
is omitted. -/
theorem refresh_scopes_selection (now : Nat) (nA nR : String) (db : Db)
    (clientId rt : String) (scopes : Option (List String)) (td : TokenRecord)
    (hfind : db.findRefreshToken rt = some td)
    (hcl : td.clientId = clientId)
    (hexp : ¬ td.expiresAt < now) :
    (exchangeRefreshToken now nA nR db clientId rt scopes).2 =
      Except.ok
        { access_token := nA, token_type := "Bearer", expires_in := 3600,
          refresh_token := nR,
          scope := String.intercalate " " (scopes.getD td.scopes) } ∧
    TokenRecord.mk nA clientId td.userId (scopes.getD td.scopes)
        (now + 3600 * 1000) ∈
      (exchangeRefreshToken now nA nR db clientId rt scopes).1.accessTokens ∧
    TokenRecord.mk nR clientId td.userId (scopes.getD td.scopes)
        (now + 86400 * 30 * 1000) ∈
      (exchangeRefreshToken now nA nR db clientId rt scopes).1.refreshTokens ∧
    (∀ s : List String, scopes = some s → scopes.getD td.scopes = s) ∧
    (scopes = none → scopes.getD td.scopes = td.scopes) := by
  have hrun := exchangeRefreshToken_ok now nA nR db clientId rt scopes td
    hfind hcl hexp
  refine ⟨by rw [hrun], by rw [hrun]; simp, by rw [hrun]; simp, ?_, ?_⟩
  · intro s hs; rw [hs]; rfl
  · intro hs; rw [hs]; rfl

/-- Witness for the amended C4, with the scopes argument provided but
empty. -/
theorem refresh_scopes_selection_witness :
    (exchangeRefreshToken 0 "a1" "r1" dbOneRefresh "client1" "rt1"
        (some [])).2 =
      Except.ok
        { access_token := "a1", token_type := "Bearer", expires_in := 3600,
          refresh_token := "r1",
          scope := String.intercalate " " ((some ([] : List String)).getD
            ["read"]) } ∧
    TokenRecord.mk "a1" "client1" 7 ((some ([] : List String)).getD ["read"])
        (0 + 3600 * 1000) ∈
      (exchangeRefreshToken 0 "a1" "r1" dbOneRefresh "client1" "rt1"
        (some [])).1.accessTokens ∧
    TokenRecord.mk "r1" "client1" 7 ((some ([] : List String)).getD ["read"])
        (0 + 86400 * 30 * 1000) ∈
      (exchangeRefreshToken 0 "a1" "r1" dbOneRefresh "client1" "rt1"
        (some [])).1.refreshTokens ∧
    (∀ s : List String, (some ([] : List String)) = some s →
      (some ([] : List String)).getD ["read"] = s) ∧
    ((some ([] : List String)) = none →
      (some ([] : List String)).getD ["read"] = ["read"]) :=
  refresh_scopes_selection 0 "a1" "r1" dbOneRefresh "client1" "rt1" (some [])
    ⟨"rt1", "client1", 7, ["read"], 1000⟩ (by rfl) (by rfl) (by decide)

/-- Counterexample to C4 as stated: the refresh token was issued with scopes
`["read"]`, the exchange requests the provided-but-empty scope list, and the
issued tokens carry the empty scopes (scope string `""`), not the original
scopes — a JavaScript array is truthy even when empty, so
`scopes || tokenData.scopes` keeps the empty list. -/
theorem refresh_scopes_empty_requested :
    (exchangeRefreshToken 0 "a1" "r1" dbOneRefresh "client1" "rt1"
        (some [])).2 =
      Except.ok
        { access_token := "a1", token_type := "Bearer", expires_in := 3600,
          refresh_token := "r1", scope := "" } ∧
    TokenRecord.mk "a1" "client1" 7 [] 3600000 ∈
      (exchangeRefreshToken 0 "a1" "r1" dbOneRefresh "client1" "rt1"
        (some [])).1.accessTokens ∧
    ("" : String) ≠ String.intercalate " " ["read"] :=
  ⟨by rfl, by decide, by decide⟩

/-- Counterexample to C5 as stated: the stored code is bound to the
non-empty redirect URI `https://app.example/cb`, the exchange omits the
`redirect_uri` argument entirely, and it succeeds instead of failing with
an invalid-grant error. -/
theorem redirect_uri_omitted_succeeds :
    (dbOneCode.findAuthorizationCode "c1").map AuthorizationCode.redirectUri =
      some "https://app.example/cb" ∧
    (exchangeAuthorizationCode (fun s => s) 0 "a1" "r1" dbOneCode "client1"
        "c1" none none).2 =
      Except.ok
        { access_token := "a1", token_type := "Bearer", expires_in := 3600,
          refresh_token := "r1", scope := "read" } :=
  ⟨by rfl, by rfl⟩

/-- C6: every expired artifact is rejected and deleted by the operation that
looks it up — `exchangeAuthorizationCode` and `challengeForAuthorizationCode`
on an expired authorization code, `exchangeRefreshToken` on an expired
refresh token, `verifyAccessToken` on an expired access token. -/
theorem expired_artifacts_rejected (hash : String → String) (now : Nat)
    (nA nR : String) (db : Db) (client code rt atk : String)
    (cv ru : Option String) (scopes : Option (List String))
    (ac : AuthorizationCode) (rrec arec : TokenRecord)
    (hfind1 : db.findAuthorizationCode code = some ac)
    (hcl1 : ac.clientId = client) (hexp1 : ac.expiresAt < now)
    (hfind2 : db.findRefreshToken rt = some rrec)
    (hcl2 : rrec.clientId = client) (hexp2 : rrec.expiresAt < now)
    (hfind3 : db.findAccessToken atk = some arec)
    (hexp3 : arec.expiresAt < now) :
    exchangeAuthorizationCode hash now nA nR db client code cv ru =
      (db.deleteAuthorizationCode code,
        Except.error AuthError.authorizationCodeExpired) ∧
    challengeForAuthorizationCode now db client code =
      (db.deleteAuthorizationCode code,
        Except.error AuthError.authorizationCodeExpired) ∧
    (db.deleteAuthorizationCode code).findAuthorizationCode code = none ∧
    exchangeRefreshToken now nA nR db client rt scopes =
      (db.deleteRefreshToken rt, Except.error AuthError.refreshTokenExpired) ∧
    (db.deleteRefreshToken rt).findRefreshToken rt = none ∧
    verifyAccessToken now db atk =
      (db.deleteAccessToken atk, Except.error AuthError.accessTokenExpired) ∧
    (db.deleteAccessToken atk).findAccessToken atk = none := by
  refine ⟨?_, ?_, findAuthorizationCode_delete db code, ?_,
    findRefreshToken_delete db rt, ?_, findAccessToken_delete db atk⟩
  · unfold exchangeAuthorizationCode
    simp [hfind1, hcl1, hexp1]
  · unfold challengeForAuthorizationCode
    simp [hfind1, hcl1, hexp1]
  · unfold exchangeRefreshToken
    simp [hfind2, hcl2, hexp2]
  · unfold verifyAccessToken
    simp [hfind3, hexp3]

def dbExpired : Db :=
  ⟨[], [⟨"c1", "client1", 1, "ch", "https://app.example/cb", 10, ["read"]⟩],
    [⟨"at1", "client1", 1, ["read"], 10⟩],
    [⟨"rt1", "client1", 1, ["read"], 10⟩]⟩

/-- Witness for C6 at a concrete database, all three artifacts expired. -/
theorem expired_artifacts_rejected_witness :
    exchangeAuthorizationCode (fun s => s) 99 "a1" "r1" dbExpired "client1"
        "c1" none none =
      (dbExpired.deleteAuthorizationCode "c1",
        Except.error AuthError.authorizationCodeExpired) ∧
    challengeForAuthorizationCode 99 dbExpired "client1" "c1" =
      (dbExpired.deleteAuthorizationCode "c1",
        Except.error AuthError.authorizationCodeExpired) ∧
    (dbExpired.deleteAuthorizationCode "c1").findAuthorizationCode "c1" =
      none ∧
    exchangeRefreshToken 99 "a1" "r1" dbExpired "client1" "rt1" none =
      (dbExpired.deleteRefreshToken "rt1",
        Except.error AuthError.refreshTokenExpired) ∧
    (dbExpired.deleteRefreshToken "rt1").findRefreshToken "rt1" = none ∧
    verifyAccessToken 99 dbExpired "at1" =
      (dbExpired.deleteAccessToken "at1",
        Except.error AuthError.accessTokenExpired) ∧
    (dbExpired.deleteAccessToken "at1").findAccessToken "at1" = none :=
  expired_artifacts_rejected (fun s => s) 99 "a1" "r1" dbExpired "client1"
    "c1" "rt1" "at1" none none none
    ⟨"c1", "client1", 1, "ch", "https://app.example/cb", 10, ["read"]⟩
    ⟨"rt1", "client1", 1, ["read"], 10⟩ ⟨"at1", "client1", 1, ["read"], 10⟩
    (by rfl) (by rfl) (by decide) (by rfl) (by rfl) (by decide) (by rfl)
    (by decide)

/-- C7: `revokeToken` is a silent no-op on an unknown or foreign token and
deletes exactly the matching record of the calling client otherwise. -/
theorem revoke_token_frame (db : Db) (clientId token : String) :
    ((db.findAccessToken token).all (fun a => a.clientId != clientId) =
        true →
     (db.findRefreshToken token).all (fun r => r.clientId != clientId) =
        true →
     revokeToken db clientId token = db) ∧
    (∀ a, db.findAccessToken token = some a → a.clientId = clientId →
      revokeToken db clientId token = db.deleteAccessToken token ∧
      (db.deleteAccessToken token).findAccessToken token = none ∧
      (db.deleteAccessToken token).refreshTokens = db.refreshTokens) ∧
    ((db.findAccessToken token).all (fun a => a.clientId != clientId) =
        true →
     ∀ r, db.findRefreshToken token = some r → r.clientId = clientId →
      revokeToken db clientId token = db.deleteRefreshToken token ∧
      (db.deleteRefreshToken token).findRefreshToken token = none ∧
      (db.deleteRefreshToken token).accessTokens = db.accessTokens) := by
  refine ⟨?_, ?_, ?_⟩
  · intro ha hr
    unfold revokeToken
    cases hfa : db.findAccessToken token with
    | none =>
      cases hfr : db.findRefreshToken token with
      | none => simp [hfr]
      | some r =>
        rw [hfr] at hr
        simp [Option.all] at hr
        simp [hfr, hr]
    | some a =>
      rw [hfa] at ha
      simp [Option.all] at ha
      cases hfr : db.findRefreshToken token with
      | none => simp [ha, hfr]
      | some r =>
        rw [hfr] at hr
        simp [Option.all] at hr
        simp [ha, hfr, hr]
  · intro a hfa hacl
    unfold revokeToken
    refine ⟨by simp [hfa, hacl], findAccessToken_delete db token, rfl⟩
  · intro ha r hfr hrcl
    refine ⟨?_, findRefreshToken_delete db token, rfl⟩
    unfold revokeToken
    cases hfa : db.findAccessToken token with
    | none => simp [hfr, hrcl]
    | some a =>
      rw [hfa] at ha
      simp [Option.all] at ha
      simp [ha, hfr, hrcl]

def dbTwoTokens : Db :=
  ⟨[], [], [⟨"t1", "client1", 1, ["read"], 99⟩],
    [⟨"t2", "client2", 2, ["read"], 99⟩]⟩

/-- Witness for C7: an unknown token and a foreign token are no-ops, an
owned access token is deleted. -/
theorem revoke_token_frame_witness :
    revokeToken dbTwoTokens "client1" "t9" = dbTwoTokens ∧
    revokeToken dbTwoTokens "client1" "t2" = dbTwoTokens ∧
    revokeToken dbTwoTokens "client1" "t1" =
      dbTwoTokens.deleteAccessToken "t1" :=
  ⟨(revoke_token_frame dbTwoTokens "client1" "t9").1 (by rfl) (by rfl),
   (revoke_token_frame dbTwoTokens "client1" "t2").1 (by rfl) (by rfl),
   ((revoke_token_frame dbTwoTokens "client1" "t1").2.1
     ⟨"t1", "client1", 1, ["read"], 99⟩ (by rfl) (by rfl)).1⟩

/-- C8 (amended): a failed `handleLogin` reveals the failure cause — it
returns the structured error `User not found` for an unknown identity and
`Invalid password` for an existing user with a wrong password, and the two
errors differ. -/
theorem login_failure_distinguishes (bcryptCompare : String → String → Bool)
    (now : Nat) (newAuthCode : String) (db : Db)
    (email1 email2 password clientId state codeChallenge redirectUri : String)
    (scopes : List String) (u : UserRecord)
    (h1 : db.findUserByEmail email1 = none)
    (h2 : db.findUserByEmail email2 = some u)
    (hp : u.password.getD "" ≠ "")
    (hc : bcryptCompare password (u.password.getD "") = false) :
    (handleLogin bcryptCompare now newAuthCode db email1 password clientId
        state codeChallenge redirectUri scopes).2 =
      ⟨false, none, some "User not found"⟩ ∧
    (handleLogin bcryptCompare now newAuthCode db email2 password clientId
        state codeChallenge redirectUri scopes).2 =
      ⟨false, none, some "Invalid password"⟩ ∧
    (some "User not found" : Option String) ≠ some "Invalid password" := by
  refine ⟨?_, ?_, by decide⟩
  · unfold handleLogin
    simp [h1]
  · unfold handleLogin
    simp [h2, hp, hc]

def dbOneUser : Db := ⟨[⟨1, "alice@example.com", some "hash1"⟩], [], [], []⟩

/-- Witness for the amended C8 at a concrete database: `bob@example.com` is
unknown, `alice@example.com` exists but the supplied password does not
match (`bcrypt.compare` is instantiated as constantly false). -/
theorem login_failure_distinguishes_witness :
    (handleLogin (fun _ _ => false) 0 "c" dbOneUser "bob@example.com" "pw"
        "cl" "st" "ch" "u" []).2 = ⟨false, none, some "User not found"⟩ ∧
    (handleLogin (fun _ _ => false) 0 "c" dbOneUser "alice@example.com" "pw"
        "cl" "st" "ch" "u" []).2 = ⟨false, none, some "Invalid password"⟩ ∧
    (some "User not found" : Option String) ≠ some "Invalid password" :=
  login_failure_distinguishes (fun _ _ => false) 0 "c" dbOneUser
    "bob@example.com" "alice@example.com" "pw" "cl" "st" "ch" "u" []
    ⟨1, "alice@example.com", some "hash1"⟩ (by rfl) (by rfl) (by decide)
    (by rfl)

/-- Counterexample to C8 as stated: at one concrete database, the two
failure runs return different structured errors, so an unknown identity and
a wrong password are distinguishable. -/
theorem login_error_reveals_cause :
    (handleLogin (fun _ _ => false) 0 "c" dbOneUser "bob@example.com" "pw"
        "cl" "st" "ch" "u" []).2.success = false ∧
    (handleLogin (fun _ _ => false) 0 "c" dbOneUser "alice@example.com" "pw"
        "cl" "st" "ch" "u" []).2.success = false ∧
    (handleLogin (fun _ _ => false) 0 "c" dbOneUser "bob@example.com" "pw"
        "cl" "st" "ch" "u" []).2 ≠
    (handleLogin (fun _ _ => false) 0 "c" dbOneUser "alice@example.com" "pw"
        "cl" "st" "ch" "u" []).2 :=
  ⟨by rfl, by rfl, by decide⟩

/-- C9 (amended): a protocol message carrying a session identifier that is
not in the session table is silently dropped — the handler returns without
writing any response — and the session table is unchanged. -/
theorem unknown_session_dropped (sessions : List SessionEntry)
    (sessionId : String) (body : MessageBody)
    (h : findSession sessions sessionId = none) :
    handleMessage sessions sessionId body =
      (sessions, MessageOutcome.noResponse) := by
  unfold handleMessage
  rw [h]

/-- Witness for the amended C9. -/
theorem unknown_session_dropped_witness :
    handleMessage [⟨"s1", 1⟩] "s2" (MessageBody.json true) =
      ([⟨"s1", 1⟩], MessageOutcome.noResponse) :=
  unknown_session_dropped [⟨"s1", 1⟩] "s2" (MessageBody.json true) (by rfl)

/-- Counterexample to C9 as stated: a message with the unknown session id
`s2` yields `noResponse` — no structured protocol error (nor any response
at all) is sent. -/
theorem unknown_session_no_error_sent :
    (handleMessage [⟨"s1", 1⟩] "s2" (MessageBody.json true)).2 =
      MessageOutcome.noResponse ∧
    MessageOutcome.noResponse ≠ MessageOutcome.invalidJson :=
  ⟨by rfl, by decide⟩

/-- C10: routing of `/message` depends only on the `sessionId` query
parameter, never on the authenticated identity — any two requests carrying
different valid bearer tokens and the same known session id produce the
same result, namely delivery to that session's connection, with no
condition relating the token's user to the session's owner. -/
theorem message_routing_ignores_identity (now : Nat) (db : Db)
    (sessions : List SessionEntry) (sessionId : String) (body : MessageBody)
    (h1 q1 h2 q2 : Option String) (t1 t2 : String) (a1 a2 : AuthInfo)
    (e : SessionEntry)
    (he1 : extractToken h1 q1 = some t1)
    (he2 : extractToken h2 q2 = some t2)
    (hv1 : verifyAccessToken now db t1 = (db, Except.ok a1))
    (hv2 : verifyAccessToken now db t2 = (db, Except.ok a2))
    (hs : findSession sessions sessionId = some e)
    (hbody : ∀ p : Bool, body ≠ MessageBody.text false p) :
    postMessage now db sessions h1 q1 sessionId body =
      postMessage now db sessions h2 q2 sessionId body ∧
    postMessage now db sessions h1 q1 sessionId body =
      (db, sessions,
        PostMessageResult.outcome (MessageOutcome.delivered sessionId)) := by
  have hrun : ∀ (hh qq : Option String) (t : String) (a : AuthInfo),
      extractToken hh qq = some t →
      verifyAccessToken now db t = (db, Except.ok a) →
      postMessage now db sessions hh qq sessionId body =
        (db, sessions,
          PostMessageResult.outcome (MessageOutcome.delivered sessionId)) := by
    intro hh qq t a he hv
    unfold postMessage
    simp only [he, hv]
    unfold handleMessage
    simp only [hs]
  exact ⟨(hrun h1 q1 t1 a1 he1 hv1).trans (hrun h2 q2 t2 a2 he2 hv2).symm,
    hrun h1 q1 t1 a1 he1 hv1⟩

def dbTwoUsersTokens : Db :=
  ⟨[], [], [⟨"t1", "client1", 1, ["read"], 5000⟩,
    ⟨"t2", "client1", 2, ["read"], 5000⟩], []⟩

/-- Witness for C10: user 2's token posts into the session `s1` opened for
user 1, with the same delivery as user 1's own token. -/
theorem message_routing_ignores_identity_witness :
    postMessage 0 dbTwoUsersTokens [⟨"s1", 1⟩] (some "Bearer t1") none "s1"
        (MessageBody.json true) =
      postMessage 0 dbTwoUsersTokens [⟨"s1", 1⟩] (some "Bearer t2") none "s1"
        (MessageBody.json true) ∧
    postMessage 0 dbTwoUsersTokens [⟨"s1", 1⟩] (some "Bearer t1") none "s1"
        (MessageBody.json true) =
      (dbTwoUsersTokens, [⟨"s1", 1⟩],
        PostMessageResult.outcome (MessageOutcome.delivered "s1")) :=
  message_routing_ignores_identity 0 dbTwoUsersTokens [⟨"s1", 1⟩] "s1"
    (MessageBody.json true) (some "Bearer t1") none (some "Bearer t2") none
    "t1" "t2" ⟨"t1", "client1", ["read"], 5, 1⟩ ⟨"t2", "client1", ["read"], 5, 2⟩
    ⟨"s1", 1⟩ (by rfl) (by rfl) (by rfl) (by rfl) (by rfl) (by decide)
